import Mathlib

/-!
Shallow embedding of the HPD (hotplug detect) state machine from `hpd.h`.

The context (`struct hpd_data`) is a record; the single delayed work item is
modelled as `dwork : Option Int` (`some t` = a callback is scheduled with delay
`t` ms, `none` = cancelled / not scheduled).  Collaborator operations
(`struct hpd_ops`) are split into presence flags (mandatory vs optional hooks,
for `hpd_init`) and an oracle record `hpd_env` supplying the return values the
handlers observe during one worker invocation.  Every collaborator call a
handler performs is recorded in a `List Call` trace.
-/

namespace Hpd

/-- Enum values in declaration order of the C `enum`. -/
def STATE_HPD_RESET : Int := 0

def STATE_PLUG : Int := 1

def STATE_CHECK_EDID : Int := 2

def STATE_DONE_DISABLED : Int := 3

def STATE_DONE_ENABLED : Int := 4

def STATE_WAIT_FOR_HPD_REASSERT : Int := 5

def STATE_RECHECK_EDID : Int := 6

def STATE_INIT_FROM_BOOTLOADER : Int := 7

def HPD_STATE_COUNT : Int := 8

def MAX_EDID_READ_ATTEMPTS : Int := 5

def HPD_STABILIZE_MS : Int := 40

def HPD_DROP_TIMEOUT_MS : Int := 1500

def CHECK_PLUG_STATE_DELAY_MS : Int := 10

def CHECK_EDID_DELAY_MS : Int := 60

/-- The `state_names` array indexed by the worker's unconditional log line. -/
def state_names : List String :=
  ["Reset", "Check Plug", "Check EDID", "Disabled", "Enabled",
   "Wait for HPD reassert", "Recheck EDID", "Takeover from bootloader"]

/-- Presence flags for the client capability set (`struct hpd_ops`): `true`
means the client supplied that function pointer. -/
structure hpd_ops where
  init : Bool
  get_hpd_state : Bool
  disable : Bool
  edid_read : Bool
  edid_ready : Bool
  edid_recheck : Bool
  shutdown : Bool
deriving DecidableEq, Repr

/-- One collaborator call, as recorded in a trace. -/
inductive Call where
  | init
  | get_hpd_state
  | disable
  | edid_read
  | edid_ready
  | edid_recheck
  | shutdown
deriving DecidableEq, Repr, BEq

/-- The context, `struct hpd_data`. -/
structure hpd_data where
  dwork : Option Int
  shutdown : Bool
  state : Int
  pending_hpd_evt : Bool
  ops : hpd_ops
  edid_reads : Int
deriving DecidableEq, Repr

/-- Oracle values returned by the collaborators during one worker invocation:
`cur_hpd` is the worker's own `get_hpd_state` sample, `hpd` the sample a
handler takes itself, `edid_read` the result of `ops->edid_read`, and
`edid_recheck` the result of `ops->edid_recheck` (-1 failure, 0 unchanged,
1 changed). -/
structure hpd_env where
  cur_hpd : Bool
  hpd : Bool
  edid_read : Bool
  edid_recheck : Int
deriving DecidableEq, Repr

/-- Calls made by `hpd_disable`: invokes `ops->disable` only if present. -/
def hpd_disable (data : hpd_data) : List Call :=
  if data.ops.disable then [Call.disable] else []

/-- `sched_hpd_work`: cancel the delayed work, then schedule it after
`resched_time` ms unless the delay is negative or shutdown was requested. -/
def sched_hpd_work (data : hpd_data) (resched_time : Int) : hpd_data :=
  let d := { data with dwork := none }
  if 0 ≤ resched_time ∧ data.shutdown = false then
    { d with dwork := some resched_time }
  else d

/-- `set_hpd_state`: record the target state; skip the reschedule entirely
when the pending-event flag is set at commit time. -/
def set_hpd_state (data : hpd_data) (target_state : Int) (resched_time : Int) :
    hpd_data :=
  let d := { data with state := target_state }
  if d.pending_hpd_evt = false then sched_hpd_work d resched_time else d

/-- `hpd_reset_state`: shut everything down, then check the plug state soon. -/
def hpd_reset_state (data : hpd_data) (_env : hpd_env) : hpd_data × List Call :=
  (set_hpd_state data STATE_PLUG CHECK_PLUG_STATE_DELAY_MS, hpd_disable data)

/-- `hpd_plug_state`: sample the line; plugged → zero the retry counter and go
read the EDID, unplugged → disable and park in DONE_DISABLED. -/
def hpd_plug_state (data : hpd_data) (env : hpd_env) : hpd_data × List Call :=
  if env.hpd then
    (set_hpd_state { data with edid_reads := 0 }
       STATE_CHECK_EDID CHECK_EDID_DELAY_MS,
     [Call.get_hpd_state])
  else
    (set_hpd_state data STATE_DONE_DISABLED (-1),
     Call.get_hpd_state :: hpd_disable data)

/-- `edid_check_state`: abort if the line dropped; otherwise read the EDID
with a bounded number of retries. -/
def edid_check_state (data : hpd_data) (env : hpd_env) : hpd_data × List Call :=
  if env.hpd = false then
    (set_hpd_state data STATE_DONE_DISABLED (-1),
     Call.get_hpd_state :: hpd_disable data)
  else if env.edid_read = false then
    let d := { data with edid_reads := data.edid_reads + 1 }
    if MAX_EDID_READ_ATTEMPTS ≤ d.edid_reads then
      (set_hpd_state d STATE_DONE_DISABLED (-1),
       [Call.get_hpd_state, Call.edid_read] ++ hpd_disable d)
    else
      (set_hpd_state d STATE_CHECK_EDID CHECK_EDID_DELAY_MS,
       [Call.get_hpd_state, Call.edid_read])
  else
    (set_hpd_state data STATE_DONE_ENABLED (-1),
     [Call.get_hpd_state, Call.edid_read] ++
       (if data.ops.edid_ready then [Call.edid_ready] else []))

/-- `wait_for_hpd_reassert_state`: the grace window expired, reset. -/
def wait_for_hpd_reassert_state (data : hpd_data) (_env : hpd_env) :
    hpd_data × List Call :=
  (set_hpd_state data STATE_HPD_RESET 0, [])

/-- `edid_recheck_state`: recheck the EDID after a drop-and-reassert; the
default target/timeout is (RESET, 0) unless overridden by the unchanged or
below-ceiling retry branches. -/
def edid_recheck_state (data : hpd_data) (env : hpd_env) : hpd_data × List Call :=
  let status := env.edid_recheck
  if status = -1 then
    let d := { data with edid_reads := data.edid_reads + 1 }
    if MAX_EDID_READ_ATTEMPTS ≤ d.edid_reads then
      (set_hpd_state d STATE_HPD_RESET 0, [Call.edid_recheck])
    else
      (set_hpd_state d STATE_RECHECK_EDID CHECK_EDID_DELAY_MS,
       [Call.edid_recheck])
  else if status = 0 then
    (set_hpd_state data STATE_DONE_ENABLED (-1), [Call.edid_recheck])
  else
    (set_hpd_state data STATE_HPD_RESET 0, [Call.edid_recheck])

/-- `handle_hpd_evt`: reinterpret the freshly sampled line level against the
current state when the worker was woken by HPD activity. -/
def handle_hpd_evt (data : hpd_data) (cur_hpd : Bool) : hpd_data :=
  if data.state = STATE_DONE_ENABLED ∧ cur_hpd = false then
    set_hpd_state data STATE_WAIT_FOR_HPD_REASSERT HPD_DROP_TIMEOUT_MS
  else if data.state = STATE_WAIT_FOR_HPD_REASSERT ∧ cur_hpd = true then
    set_hpd_state { data with edid_reads := 0 }
      STATE_RECHECK_EDID CHECK_EDID_DELAY_MS
  else if data.state = STATE_DONE_ENABLED ∧ cur_hpd = true then
    data
  else if data.state = STATE_INIT_FROM_BOOTLOADER ∧ cur_hpd = true then
    set_hpd_state data STATE_PLUG HPD_STABILIZE_MS
  else
    set_hpd_state data STATE_HPD_RESET HPD_STABILIZE_MS

/-- Type of a per-state handler in the dispatch table. -/
def dispatch_func_t := hpd_data → hpd_env → hpd_data × List Call

/-- The `state_machine_dispatch` array: one entry per state, `none` for the
NULL entries (DONE_DISABLED, DONE_ENABLED, INIT_FROM_BOOTLOADER). -/
def state_machine_dispatch : List (Option dispatch_func_t) :=
  [some hpd_reset_state, some hpd_plug_state, some edid_check_state,
   none, none, some wait_for_hpd_reassert_state, some edid_recheck_state,
   none]

/-- `hpd_worker`: one invocation of the work callback.  The work item is
dequeued (`dwork := none`) when the callback fires; the worker snapshots and
clears the pending flag, samples the line once, and either handles the event
or dispatches to the current state's handler.  The comparison
`data->state < ARRAY_SIZE(state_machine_dispatch)` converts the `int` state
to `size_t`, so a negative state also fails it; this is `0 ≤ state ∧
state < 8` here. -/
def hpd_worker (data : hpd_data) (env : hpd_env) : hpd_data × List Call :=
  let pending := data.pending_hpd_evt
  let d := { data with pending_hpd_evt := false, dwork := none }
  if pending then
    (handle_hpd_evt d env.cur_hpd, [Call.get_hpd_state])
  else if 0 ≤ d.state ∧ d.state < HPD_STATE_COUNT then
    match state_machine_dispatch.getD d.state.toNat none with
    | some f =>
        let r := f d env
        (r.1, Call.get_hpd_state :: r.2)
    | none => (d, [Call.get_hpd_state])
  else
    (d, [Call.get_hpd_state])

/-- `hpd_set_pending_evt`: the admission layer sets the pending flag and
requests immediate (zero-delay) scheduling. -/
def hpd_set_pending_evt (data : hpd_data) : hpd_data :=
  sched_hpd_work { data with pending_hpd_evt := true } 0

/-- `hpd_shutdown`: mark shutting-down, synchronously cancel the delayed
work, then invoke the optional client shutdown hook. -/
def hpd_shutdown (data : hpd_data) : hpd_data × List Call :=
  ({ data with shutdown := true, dwork := none },
   if data.ops.shutdown then [Call.shutdown] else [])

/-- The freshly initialized context produced by a successful `hpd_init`. -/
def init_data (drv_ops : hpd_ops) : hpd_data :=
  { dwork := none, shutdown := false, state := STATE_INIT_FROM_BOOTLOADER,
    pending_hpd_evt := false, ops := drv_ops, edid_reads := 0 }

/-- `hpd_init`: `BUG_ON` (modelled as `none`) when any mandatory capability
is missing; otherwise invoke the optional init hook and set up the context. -/
def hpd_init (drv_ops : hpd_ops) : Option (hpd_data × List Call) :=
  if drv_ops.get_hpd_state = false ∨ drv_ops.edid_read = false ∨
      drv_ops.edid_ready = false ∨ drv_ops.edid_recheck = false then
    none
  else
    some (init_data drv_ops, if drv_ops.init then [Call.init] else [])

/-- One worker invocation at system level.  `race = true` injects an
admission (`hpd_set_pending_evt`) that lands after the worker's
snapshot-and-clear of the pending flag but before the handler's commit:
the only interleaving point that is not equivalent to an admission between
whole steps, and precisely the race the pending-flag check in
`set_hpd_state` exists for. -/
def worker_step (data : hpd_data) (env : hpd_env) (race : Bool) :
    hpd_data × List Call :=
  let d0 := { data with pending_hpd_evt := false, dwork := none }
  let d1 := if race then hpd_set_pending_evt d0 else d0
  if data.pending_hpd_evt then
    (handle_hpd_evt d1 env.cur_hpd, [Call.get_hpd_state])
  else if 0 ≤ d1.state ∧ d1.state < HPD_STATE_COUNT then
    match state_machine_dispatch.getD d1.state.toNat none with
    | some f =>
        let r := f d1 env
        (r.1, Call.get_hpd_state :: r.2)
    | none => (d1, [Call.get_hpd_state])
  else
    (d1, [Call.get_hpd_state])

/-- System transitions: an admission may happen at any time; the worker runs
only while a callback is actually scheduled; shutdown may happen at any
time. -/
inductive Step : hpd_data → hpd_data → Prop where
  | notify (d : hpd_data) : Step d (hpd_set_pending_evt d)
  | work (d : hpd_data) (env : hpd_env) (race : Bool) (t : Int)
      (h : d.dwork = some t) : Step d (worker_step d env race).1
  | shut (d : hpd_data) : Step d (hpd_shutdown d).1

/-- Contexts reachable from a successful initialization. -/
def Reachable (drv_ops : hpd_ops) (d : hpd_data) : Prop :=
  Relation.ReflTransGen Step (init_data drv_ops) d

/-- States having a handler in the dispatch table. -/
def dispatchable (s : Int) : Prop :=
  s = STATE_HPD_RESET ∨ s = STATE_PLUG ∨ s = STATE_CHECK_EDID ∨
  s = STATE_WAIT_FOR_HPD_REASSERT ∨ s = STATE_RECHECK_EDID

/-- The retry-counter invariant: the counter never passes the ceiling, and
sits strictly below it whenever the machine is in a retrying state. -/
def retry_inv (d : hpd_data) : Prop :=
  d.edid_reads ≤ MAX_EDID_READ_ATTEMPTS ∧
  ((d.state = STATE_CHECK_EDID ∨ d.state = STATE_RECHECK_EDID) →
    d.edid_reads < MAX_EDID_READ_ATTEMPTS)

/-- Combined inductive invariant: state in range, retry ceiling respected,
and a scheduled callback with no pending event only ever targets a state
with a dispatch handler. -/
def good_inv (d : hpd_data) : Prop :=
  0 ≤ d.state ∧ d.state < HPD_STATE_COUNT ∧ retry_inv d ∧
  (d.dwork ≠ none → d.pending_hpd_evt = false → dispatchable d.state)

/-! Concrete fixtures used by witnesses and traces. -/

/-- Capability set with every hook present. -/
def allOps : hpd_ops :=
  { init := true, get_hpd_state := true, disable := true,
    edid_read := true, edid_ready := true, edid_recheck := true,
    shutdown := true }

/-- Environment in which every EDID read fails while the line stays high. -/
def envReadFail : hpd_env :=
  { cur_hpd := true, hpd := true, edid_read := false, edid_recheck := -1 }

/-- Environment in which the line is sampled low everywhere. -/
def envDrop : hpd_env :=
  { cur_hpd := false, hpd := false, edid_read := true, edid_recheck := 0 }

/-- A context sitting in DONE_ENABLED with an admitted pending event. -/
def enabledData : hpd_data :=
  { dwork := some 0, shutdown := false, state := STATE_DONE_ENABLED,
    pending_hpd_evt := true, ops := allOps, edid_reads := 0 }

/-- A context on which shutdown has been requested. -/
def shutData : hpd_data :=
  { dwork := none, shutdown := true, state := STATE_DONE_DISABLED,
    pending_hpd_evt := false, ops := allOps, edid_reads := 0 }

/-- A context that just entered CHECK_EDID with a fresh retry counter. -/
def checkStart : hpd_data :=
  { dwork := some CHECK_EDID_DELAY_MS, shutdown := false,
    state := STATE_CHECK_EDID, pending_hpd_evt := false, ops := allOps,
    edid_reads := 0 }

/-- A context that just entered RECHECK_EDID with a fresh retry counter. -/
def recheckStart : hpd_data :=
  { dwork := some CHECK_EDID_DELAY_MS, shutdown := false,
    state := STATE_RECHECK_EDID, pending_hpd_evt := false, ops := allOps,
    edid_reads := 0 }

/-- A context stranded at the out-of-range state value HPD_STATE_COUNT. -/
def strandedData : hpd_data :=
  { dwork := some 0, shutdown := false, state := HPD_STATE_COUNT,
    pending_hpd_evt := false, ops := allOps, edid_reads := 0 }

/-- Iterate the worker `n` times in the failing-EDID-read environment,
collecting the collaborator calls of all invocations. -/
def runWorker : Nat → hpd_data → hpd_data × List Call
  | 0, d => (d, [])
  | n + 1, d =>
      let r := hpd_worker d envReadFail
      let rest := runWorker n r.1
      (rest.1, r.2 ++ rest.2)

/-! Helper lemmas. -/

/-- Without a racing admission, a system-level worker step is exactly one
invocation of `hpd_worker`. -/
theorem worker_step_no_race (data : hpd_data) (env : hpd_env) :
    worker_step data env false = hpd_worker data env := rfl

@[simp] theorem set_hpd_state_state (d : hpd_data) (tgt t : Int) :
    (set_hpd_state d tgt t).state = tgt := by
  simp only [set_hpd_state, sched_hpd_work]
  split_ifs <;> rfl

@[simp] theorem set_hpd_state_reads (d : hpd_data) (tgt t : Int) :
    (set_hpd_state d tgt t).edid_reads = d.edid_reads := by
  simp only [set_hpd_state, sched_hpd_work]
  split_ifs <;> rfl

@[simp] theorem set_hpd_state_pending (d : hpd_data) (tgt t : Int) :
    (set_hpd_state d tgt t).pending_hpd_evt = d.pending_hpd_evt := by
  simp only [set_hpd_state, sched_hpd_work]
  split_ifs <;> rfl

@[simp] theorem set_hpd_state_shut (d : hpd_data) (tgt t : Int) :
    (set_hpd_state d tgt t).shutdown = d.shutdown := by
  simp only [set_hpd_state, sched_hpd_work]
  split_ifs <;> rfl

@[simp] theorem set_hpd_state_ops (d : hpd_data) (tgt t : Int) :
    (set_hpd_state d tgt t).ops = d.ops := by
  simp only [set_hpd_state, sched_hpd_work]
  split_ifs <;> rfl

theorem set_hpd_state_dwork (d : hpd_data) (tgt t : Int) :
    (set_hpd_state d tgt t).dwork =
      if d.pending_hpd_evt then d.dwork
      else if 0 ≤ t ∧ d.shutdown = false then some t
      else none := by
  simp only [set_hpd_state, sched_hpd_work]
  by_cases hp : d.pending_hpd_evt <;> split_ifs <;> simp_all

@[simp] theorem set_pending_evt_state (d : hpd_data) :
    (hpd_set_pending_evt d).state = d.state := by
  simp only [hpd_set_pending_evt, sched_hpd_work]
  split_ifs <;> rfl

@[simp] theorem set_pending_evt_reads (d : hpd_data) :
    (hpd_set_pending_evt d).edid_reads = d.edid_reads := by
  simp only [hpd_set_pending_evt, sched_hpd_work]
  split_ifs <;> rfl

@[simp] theorem set_pending_evt_pending (d : hpd_data) :
    (hpd_set_pending_evt d).pending_hpd_evt = true := by
  simp only [hpd_set_pending_evt, sched_hpd_work]
  split_ifs <;> rfl

/-- Any `set_hpd_state` commit whose target has a dispatch handler, or whose
delay is the "none" sentinel, preserves the scheduled-means-dispatchable
conjunct of the invariant; together with target range and retry-counter
facts it yields the whole invariant. -/
theorem good_inv_set (d2 : hpd_data) (tgt t : Int)
    (h0 : 0 ≤ tgt) (h8 : tgt < HPD_STATE_COUNT)
    (hr : d2.edid_reads ≤ MAX_EDID_READ_ATTEMPTS)
    (hrs : (tgt = STATE_CHECK_EDID ∨ tgt = STATE_RECHECK_EDID) →
      d2.edid_reads < MAX_EDID_READ_ATTEMPTS)
    (hdw : dispatchable tgt ∨ t < 0) :
    good_inv (set_hpd_state d2 tgt t) := by
  refine ⟨by simpa using h0, by simpa using h8, ⟨by simpa using hr, ?_⟩, ?_⟩
  · intro hs
    simp only [set_hpd_state_state] at hs
    simpa using hrs hs
  · intro hne hpf
    simp only [set_hpd_state_state]
    rcases hdw with hd | hd
    · exact hd
    · exfalso
      rw [set_hpd_state_dwork] at hne
      rw [set_hpd_state_pending] at hpf
      rw [hpf] at hne
      simp only [Bool.false_eq_true, if_false] at hne
      have hnc : ¬ (0 ≤ t ∧ d2.shutdown = false) := fun hc => by omega
      rw [if_neg hnc] at hne
      exact hne rfl

theorem dispatchable_reset : dispatchable STATE_HPD_RESET := Or.inl rfl

theorem dispatchable_plug : dispatchable STATE_PLUG := Or.inr (Or.inl rfl)

theorem dispatchable_check : dispatchable STATE_CHECK_EDID :=
  Or.inr (Or.inr (Or.inl rfl))

theorem dispatchable_wait : dispatchable STATE_WAIT_FOR_HPD_REASSERT :=
  Or.inr (Or.inr (Or.inr (Or.inl rfl)))

theorem dispatchable_recheck : dispatchable STATE_RECHECK_EDID :=
  Or.inr (Or.inr (Or.inr (Or.inr rfl)))

theorem hpd_reset_fst (d1 : hpd_data) (env : hpd_env) :
    (hpd_reset_state d1 env).1 =
      set_hpd_state d1 STATE_PLUG CHECK_PLUG_STATE_DELAY_MS := rfl

theorem wait_fst (d1 : hpd_data) (env : hpd_env) :
    (wait_for_hpd_reassert_state d1 env).1 =
      set_hpd_state d1 STATE_HPD_RESET 0 := rfl

theorem hpd_plug_fst (d1 : hpd_data) (env : hpd_env) :
    (hpd_plug_state d1 env).1 =
      if env.hpd then
        set_hpd_state { d1 with edid_reads := 0 } STATE_CHECK_EDID
          CHECK_EDID_DELAY_MS
      else set_hpd_state d1 STATE_DONE_DISABLED (-1) := by
  by_cases h : env.hpd <;> simp [hpd_plug_state, h]

theorem edid_check_fst (d1 : hpd_data) (env : hpd_env) :
    (edid_check_state d1 env).1 =
      if env.hpd = false then set_hpd_state d1 STATE_DONE_DISABLED (-1)
      else if env.edid_read = false then
        if MAX_EDID_READ_ATTEMPTS ≤ d1.edid_reads + 1 then
          set_hpd_state { d1 with edid_reads := d1.edid_reads + 1 }
            STATE_DONE_DISABLED (-1)
        else
          set_hpd_state { d1 with edid_reads := d1.edid_reads + 1 }
            STATE_CHECK_EDID CHECK_EDID_DELAY_MS
      else set_hpd_state d1 STATE_DONE_ENABLED (-1) := by
  by_cases h1 : env.hpd = false
  · simp [edid_check_state, h1]
  · by_cases h2 : env.edid_read = false
    · by_cases h3 : MAX_EDID_READ_ATTEMPTS ≤ d1.edid_reads + 1 <;>
        simp [edid_check_state, h1, h2, h3]
    · simp [edid_check_state, h1, h2]

theorem edid_recheck_fst (d1 : hpd_data) (env : hpd_env) :
    (edid_recheck_state d1 env).1 =
      if env.edid_recheck = -1 then
        if MAX_EDID_READ_ATTEMPTS ≤ d1.edid_reads + 1 then
          set_hpd_state { d1 with edid_reads := d1.edid_reads + 1 }
            STATE_HPD_RESET 0
        else
          set_hpd_state { d1 with edid_reads := d1.edid_reads + 1 }
            STATE_RECHECK_EDID CHECK_EDID_DELAY_MS
      else if env.edid_recheck = 0 then
        set_hpd_state d1 STATE_DONE_ENABLED (-1)
      else set_hpd_state d1 STATE_HPD_RESET 0 := by
  by_cases h1 : env.edid_recheck = -1
  · by_cases h3 : MAX_EDID_READ_ATTEMPTS ≤ d1.edid_reads + 1 <;>
      simp [edid_recheck_state, h1, h3]
  · by_cases h2 : env.edid_recheck = 0 <;>
      simp [edid_recheck_state, h1, h2]

theorem good_inv_reset (d1 : hpd_data) (env : hpd_env)
    (hr : d1.edid_reads ≤ MAX_EDID_READ_ATTEMPTS) :
    good_inv ((hpd_reset_state d1 env).1) := by
  rw [hpd_reset_fst]
  exact good_inv_set d1 STATE_PLUG CHECK_PLUG_STATE_DELAY_MS (by decide)
    (by decide) hr (fun hcon => absurd hcon (by decide))
    (Or.inl dispatchable_plug)

theorem good_inv_wait (d1 : hpd_data) (env : hpd_env)
    (hr : d1.edid_reads ≤ MAX_EDID_READ_ATTEMPTS) :
    good_inv ((wait_for_hpd_reassert_state d1 env).1) := by
  rw [wait_fst]
  exact good_inv_set d1 STATE_HPD_RESET 0 (by decide) (by decide) hr
    (fun hcon => absurd hcon (by decide)) (Or.inl dispatchable_reset)

theorem good_inv_plug (d1 : hpd_data) (env : hpd_env)
    (hr : d1.edid_reads ≤ MAX_EDID_READ_ATTEMPTS) :
    good_inv ((hpd_plug_state d1 env).1) := by
  rw [hpd_plug_fst]
  by_cases h : env.hpd
  · rw [if_pos h]
    refine good_inv_set _ STATE_CHECK_EDID CHECK_EDID_DELAY_MS (by decide)
      (by decide) ?_ ?_ (Or.inl dispatchable_check)
    · show (0 : Int) ≤ MAX_EDID_READ_ATTEMPTS
      decide
    · intro hcon
      show (0 : Int) < MAX_EDID_READ_ATTEMPTS
      decide
  · rw [if_neg h]
    exact good_inv_set d1 STATE_DONE_DISABLED (-1) (by decide) (by decide) hr
      (fun hcon => absurd hcon (by decide)) (Or.inr (by decide))

theorem good_inv_check (d1 : hpd_data) (env : hpd_env)
    (hlt : d1.edid_reads < MAX_EDID_READ_ATTEMPTS) :
    good_inv ((edid_check_state d1 env).1) := by
  rw [edid_check_fst]
  by_cases h1 : env.hpd = false
  · rw [if_pos h1]
    exact good_inv_set d1 STATE_DONE_DISABLED (-1) (by decide) (by decide)
      (le_of_lt hlt) (fun hcon => absurd hcon (by decide))
      (Or.inr (by decide))
  · rw [if_neg h1]
    by_cases h2 : env.edid_read = false
    · rw [if_pos h2]
      by_cases h3 : MAX_EDID_READ_ATTEMPTS ≤ d1.edid_reads + 1
      · rw [if_pos h3]
        refine good_inv_set _ STATE_DONE_DISABLED (-1) (by decide) (by decide)
          ?_ (fun hcon => absurd hcon (by decide)) (Or.inr (by decide))
        show d1.edid_reads + 1 ≤ MAX_EDID_READ_ATTEMPTS
        omega
      · rw [if_neg h3]
        refine good_inv_set _ STATE_CHECK_EDID CHECK_EDID_DELAY_MS (by decide)
          (by decide) ?_ ?_ (Or.inl dispatchable_check)
        · show d1.edid_reads + 1 ≤ MAX_EDID_READ_ATTEMPTS
          omega
        · intro hcon
          show d1.edid_reads + 1 < MAX_EDID_READ_ATTEMPTS
          omega
    · rw [if_neg h2]
      exact good_inv_set d1 STATE_DONE_ENABLED (-1) (by decide) (by decide)
        (le_of_lt hlt) (fun hcon => absurd hcon (by decide))
        (Or.inr (by decide))

theorem good_inv_recheck (d1 : hpd_data) (env : hpd_env)
    (hlt : d1.edid_reads < MAX_EDID_READ_ATTEMPTS) :
    good_inv ((edid_recheck_state d1 env).1) := by
  rw [edid_recheck_fst]
  by_cases h1 : env.edid_recheck = -1
  · rw [if_pos h1]
    by_cases h3 : MAX_EDID_READ_ATTEMPTS ≤ d1.edid_reads + 1
    · rw [if_pos h3]
      refine good_inv_set _ STATE_HPD_RESET 0 (by decide) (by decide) ?_
        (fun hcon => absurd hcon (by decide)) (Or.inl dispatchable_reset)
      show d1.edid_reads + 1 ≤ MAX_EDID_READ_ATTEMPTS
      omega
    · rw [if_neg h3]
      refine good_inv_set _ STATE_RECHECK_EDID CHECK_EDID_DELAY_MS (by decide)
        (by decide) ?_ ?_ (Or.inl dispatchable_recheck)
      · show d1.edid_reads + 1 ≤ MAX_EDID_READ_ATTEMPTS
        omega
      · intro hcon
        show d1.edid_reads + 1 < MAX_EDID_READ_ATTEMPTS
        omega
  · rw [if_neg h1]
    by_cases h2 : env.edid_recheck = 0
    · rw [if_pos h2]
      exact good_inv_set d1 STATE_DONE_ENABLED (-1) (by decide) (by decide)
        (le_of_lt hlt) (fun hcon => absurd hcon (by decide))
        (Or.inr (by decide))
    · rw [if_neg h2]
      exact good_inv_set d1 STATE_HPD_RESET 0 (by decide) (by decide)
        (le_of_lt hlt) (fun hcon => absurd hcon (by decide))
        (Or.inl dispatchable_reset)

theorem good_inv_evt (d1 : hpd_data) (cur : Bool)
    (hg0 : 0 ≤ d1.state) (hg8 : d1.state < HPD_STATE_COUNT)
    (hretry : retry_inv d1)
    (hdw : d1.dwork = none ∨ d1.pending_hpd_evt = true) :
    good_inv (handle_hpd_evt d1 cur) := by
  unfold handle_hpd_evt
  split_ifs with h1 h2 h3 h4
  · exact good_inv_set d1 STATE_WAIT_FOR_HPD_REASSERT HPD_DROP_TIMEOUT_MS
      (by decide) (by decide) hretry.1 (fun hcon => absurd hcon (by decide))
      (Or.inl dispatchable_wait)
  · refine good_inv_set _ STATE_RECHECK_EDID CHECK_EDID_DELAY_MS (by decide)
      (by decide) ?_ ?_ (Or.inl dispatchable_recheck)
    · show (0 : Int) ≤ MAX_EDID_READ_ATTEMPTS
      decide
    · intro hcon
      show (0 : Int) < MAX_EDID_READ_ATTEMPTS
      decide
  · refine ⟨hg0, hg8, hretry, fun hne hpf => ?_⟩
    rcases hdw with h | h
    · exact absurd h hne
    · rw [hpf] at h
      exact absurd h (by decide)
  · exact good_inv_set d1 STATE_PLUG HPD_STABILIZE_MS (by decide) (by decide)
      hretry.1 (fun hcon => absurd hcon (by decide))
      (Or.inl dispatchable_plug)
  · exact good_inv_set d1 STATE_HPD_RESET HPD_STABILIZE_MS (by decide)
      (by decide) hretry.1 (fun hcon => absurd hcon (by decide))
      (Or.inl dispatchable_reset)

theorem good_inv_notify (d : hpd_data) (hd : good_inv d) :
    good_inv (hpd_set_pending_evt d) := by
  obtain ⟨h0, h8, hr, _⟩ := hd
  refine ⟨by simpa using h0, by simpa using h8, ⟨by simpa using hr.1, ?_⟩, ?_⟩
  · intro hs
    simp only [set_pending_evt_state] at hs
    simpa using hr.2 hs
  · intro hne hpf
    rw [set_pending_evt_pending] at hpf
    exact absurd hpf (by decide)

theorem good_inv_shut_step (d : hpd_data) (hd : good_inv d) :
    good_inv ((hpd_shutdown d).1) := by
  obtain ⟨h0, h8, hr, _⟩ := hd
  exact ⟨h0, h8, hr, fun hne hpf => absurd rfl hne⟩

/-- Every system step preserves the combined invariant. -/
theorem good_inv_step {d e : hpd_data} (h : Step d e) (hd : good_inv d) :
    good_inv e := by
  cases h with
  | notify => exact good_inv_notify d hd
  | shut => exact good_inv_shut_step d hd
  | work env race t hdw =>
    obtain ⟨h0, h8, hretry, hsched⟩ := hd
    obtain ⟨dw, sd, st, pe, op, er⟩ := d
    cases pe with
    | true =>
      -- event-handling path: the worker routes to handle_hpd_evt
      cases race with
      | false => exact good_inv_evt _ env.cur_hpd h0 h8 hretry (Or.inl rfl)
      | true =>
        have hgoal : (worker_step ⟨dw, sd, st, true, op, er⟩ env true).1 =
            handle_hpd_evt
              (hpd_set_pending_evt ⟨none, sd, st, false, op, er⟩)
              env.cur_hpd := rfl
        rw [hgoal]
        refine good_inv_evt _ env.cur_hpd ?_ ?_ ?_
          (Or.inr (set_pending_evt_pending _))
        · rw [set_pending_evt_state]
          exact h0
        · rw [set_pending_evt_state]
          exact h8
        · refine ⟨?_, ?_⟩
          · rw [set_pending_evt_reads]
            exact hretry.1
          · intro hsx
            rw [set_pending_evt_reads]
            rw [set_pending_evt_state] at hsx
            exact hretry.2 hsx
    | false =>
      -- state-dispatch path: the scheduled callback targets a dispatchable
      -- state by the invariant
      have hne : (⟨dw, sd, st, false, op, er⟩ : hpd_data).dwork ≠ none := by
        rw [hdw]
        simp
      have hdisp := hsched hne rfl
      unfold dispatchable at hdisp
      rcases hdisp with hs | hs | hs | hs | hs
      · have hst : st = STATE_HPD_RESET := hs
        subst hst
        cases race <;> cases sd <;> exact good_inv_reset _ env hretry.1
      · have hst : st = STATE_PLUG := hs
        subst hst
        cases race <;> cases sd <;> exact good_inv_plug _ env hretry.1
      · have hst : st = STATE_CHECK_EDID := hs
        subst hst
        cases race <;> cases sd <;>
          exact good_inv_check _ env (hretry.2 (Or.inl rfl))
      · have hst : st = STATE_WAIT_FOR_HPD_REASSERT := hs
        subst hst
        cases race <;> cases sd <;> exact good_inv_wait _ env hretry.1
      · have hst : st = STATE_RECHECK_EDID := hs
        subst hst
        cases race <;> cases sd <;>
          exact good_inv_recheck _ env (hretry.2 (Or.inr rfl))

/-- The invariant holds at initialization. -/
theorem good_inv_init (drv_ops : hpd_ops) : good_inv (init_data drv_ops) := by
  refine ⟨?_, ?_, ⟨?_, ?_⟩, ?_⟩
  · show (0 : Int) ≤ STATE_INIT_FROM_BOOTLOADER
    decide
  · show STATE_INIT_FROM_BOOTLOADER < HPD_STATE_COUNT
    decide
  · show (0 : Int) ≤ MAX_EDID_READ_ATTEMPTS
    decide
  · intro hcon
    have hcon2 : STATE_INIT_FROM_BOOTLOADER = STATE_CHECK_EDID ∨
        STATE_INIT_FROM_BOOTLOADER = STATE_RECHECK_EDID := hcon
    exact absurd hcon2 (by decide)
  · intro hne hpf
    exact absurd rfl hne

/-- The invariant holds in every reachable context. -/
theorem good_inv_reachable (drv_ops : hpd_ops) (d : hpd_data)
    (h : Reachable drv_ops d) : good_inv d := by
  induction h with
  | refl => exact good_inv_init drv_ops
  | tail _ hbc ih => exact good_inv_step hbc ih

/-! Claim theorems. -/

/-- C2: a transition committed by `set_hpd_state` skips its own reschedule
(and the cancel it would perform) exactly when the pending flag is set at
commit time, leaving the admission layer's schedule in place; otherwise the
scheduling step runs: cancel, then schedule after the given delay (the step
itself suppresses the schedule on shutdown or a negative "none" delay). -/
theorem set_hpd_state_commit (d : hpd_data) (tgt t : Int) :
    set_hpd_state d tgt t =
      if d.pending_hpd_evt then { d with state := tgt }
      else if 0 ≤ t ∧ d.shutdown = false then
        { d with state := tgt, dwork := some t }
      else { d with state := tgt, dwork := none } := by
  by_cases hp : d.pending_hpd_evt <;>
    simp [set_hpd_state, sched_hpd_work, hp]

/-- C5: once the shutting-down flag is set, every pass through the
scheduling step is suppressed, whether reached directly, from a
notify-signal-change admission, or from a committed state transition, for
every state and every requested delay. -/
theorem shutdown_suppresses_scheduling (d : hpd_data) (tgt t : Int)
    (h : d.shutdown = true) :
    (sched_hpd_work d t).dwork = none ∧
    (hpd_set_pending_evt d).dwork = none ∧
    (d.pending_hpd_evt = false → (set_hpd_state d tgt t).dwork = none) := by
  refine ⟨?_, ?_, fun hp => ?_⟩
  · simp [sched_hpd_work, h]
  · simp [sched_hpd_work, hpd_set_pending_evt, h]
  · simp [sched_hpd_work, set_hpd_state, h, hp]

/-- Witness for C5 at a concrete shut-down context. -/
theorem shutdown_suppresses_scheduling_witness :
    (sched_hpd_work shutData 40).dwork = none ∧
    (hpd_set_pending_evt shutData).dwork = none ∧
    (set_hpd_state shutData STATE_HPD_RESET 40).dwork = none := by
  have h := shutdown_suppresses_scheduling shutData STATE_HPD_RESET 40 rfl
  exact ⟨h.1, h.2.1, h.2.2 rfl⟩

/-- C1: a worker invocation admitted with the pending flag set maps the
current state and the freshly sampled signal exactly to the event table:
(DONE_ENABLED, low) → WAIT_FOR_HPD_REASSERT after 1500 ms;
(WAIT_FOR_HPD_REASSERT, high) → retry counter zeroed, RECHECK_EDID after
60 ms; (DONE_ENABLED, high) → ignored; (INIT_FROM_BOOTLOADER, high) → PLUG
after 40 ms; anything else → RESET after 40 ms. -/
theorem handle_hpd_evt_table (d : hpd_data) (env : hpd_env)
    (hp : d.pending_hpd_evt = true) (hs : d.shutdown = false) :
    hpd_worker d env =
      (if d.state = STATE_DONE_ENABLED ∧ env.cur_hpd = false then
         { d with pending_hpd_evt := false,
                  state := STATE_WAIT_FOR_HPD_REASSERT,
                  dwork := some HPD_DROP_TIMEOUT_MS }
       else if d.state = STATE_WAIT_FOR_HPD_REASSERT ∧ env.cur_hpd = true then
         { d with pending_hpd_evt := false, edid_reads := 0,
                  state := STATE_RECHECK_EDID,
                  dwork := some CHECK_EDID_DELAY_MS }
       else if d.state = STATE_DONE_ENABLED ∧ env.cur_hpd = true then
         { d with pending_hpd_evt := false, dwork := none }
       else if d.state = STATE_INIT_FROM_BOOTLOADER ∧ env.cur_hpd = true then
         { d with pending_hpd_evt := false, state := STATE_PLUG,
                  dwork := some HPD_STABILIZE_MS }
       else
         { d with pending_hpd_evt := false, state := STATE_HPD_RESET,
                  dwork := some HPD_STABILIZE_MS },
       [Call.get_hpd_state]) := by
  simp only [hpd_worker, hp, if_true, handle_hpd_evt, set_hpd_state,
    sched_hpd_work, hs]
  split_ifs <;> simp_all [HPD_DROP_TIMEOUT_MS, CHECK_EDID_DELAY_MS,
    HPD_STABILIZE_MS]

/-- Witness for C1: a drop admitted in DONE_ENABLED moves to
WAIT_FOR_HPD_REASSERT with the 1500 ms grace timeout. -/
theorem handle_hpd_evt_table_witness :
    hpd_worker enabledData envDrop =
      ({ enabledData with pending_hpd_evt := false,
                          state := STATE_WAIT_FOR_HPD_REASSERT,
                          dwork := some HPD_DROP_TIMEOUT_MS },
       [Call.get_hpd_state]) := by
  have h := handle_hpd_evt_table enabledData envDrop rfl rfl
  rw [h]; decide

/-- C7: a worker invocation from DONE_ENABLED with the pending flag set and
the signal re-sampled high (a benign bounce) leaves the state unchanged,
schedules nothing, and performs zero collaborator calls beyond the worker's
single signal sample. -/
theorem bounce_ignored (d : hpd_data) (env : hpd_env)
    (hst : d.state = STATE_DONE_ENABLED) (hp : d.pending_hpd_evt = true)
    (hcur : env.cur_hpd = true) :
    hpd_worker d env =
      ({ d with pending_hpd_evt := false, dwork := none },
       [Call.get_hpd_state]) := by
  norm_num [hpd_worker, hp, handle_hpd_evt, hst, hcur, set_hpd_state,
    STATE_DONE_ENABLED, STATE_WAIT_FOR_HPD_REASSERT]

/-- Witness for C7 at a concrete bouncing context. -/
theorem bounce_ignored_witness :
    hpd_worker enabledData envReadFail =
      ({ enabledData with pending_hpd_evt := false, dwork := none },
       [Call.get_hpd_state]) := by
  have h := bounce_ignored enabledData envReadFail rfl rfl rfl
  exact h

/-- C3: in CHECK_EDID the handler aborts to DONE_DISABLED (via disable) when
the re-sampled signal has dropped; on a read failure it increments the retry
counter, re-entering CHECK_EDID after 60 ms below the ceiling of 5 and
disabling into DONE_DISABLED at the ceiling; consequently five consecutive
read failures from a fresh counter reach DONE_DISABLED with exactly 5 read
attempts, exactly one disable call, and nothing further scheduled. -/
theorem edid_check_retry (d : hpd_data) (env : hpd_env)
    (hp : d.pending_hpd_evt = false) (hs : d.shutdown = false) :
    (env.hpd = false →
      edid_check_state d env =
        ({ d with state := STATE_DONE_DISABLED, dwork := none },
         Call.get_hpd_state :: hpd_disable d)) ∧
    (env.hpd = true → env.edid_read = false →
      d.edid_reads + 1 < MAX_EDID_READ_ATTEMPTS →
      edid_check_state d env =
        ({ d with edid_reads := d.edid_reads + 1, state := STATE_CHECK_EDID,
                  dwork := some CHECK_EDID_DELAY_MS },
         [Call.get_hpd_state, Call.edid_read])) ∧
    (env.hpd = true → env.edid_read = false →
      MAX_EDID_READ_ATTEMPTS ≤ d.edid_reads + 1 →
      edid_check_state d env =
        ({ d with edid_reads := d.edid_reads + 1,
                  state := STATE_DONE_DISABLED, dwork := none },
         [Call.get_hpd_state, Call.edid_read] ++
           hpd_disable { d with edid_reads := d.edid_reads + 1 })) ∧
    ((runWorker 5 checkStart).1.state = STATE_DONE_DISABLED ∧
     (runWorker 5 checkStart).1.edid_reads = 5 ∧
     (runWorker 5 checkStart).1.dwork = none ∧
     (runWorker 5 checkStart).2.count Call.edid_read = 5 ∧
     (runWorker 5 checkStart).2.count Call.disable = 1) := by
  refine ⟨fun h1 => ?_, fun h1 h2 h3 => ?_, fun h1 h2 h3 => ?_, by decide⟩
  · simp [edid_check_state, h1, set_hpd_state, sched_hpd_work, hp, hs]
  · have hnle : ¬ (MAX_EDID_READ_ATTEMPTS ≤ d.edid_reads + 1) := by omega
    simp [edid_check_state, h1, h2, hnle, set_hpd_state, sched_hpd_work,
      hp, hs, CHECK_EDID_DELAY_MS]
  · simp [edid_check_state, h1, h2, h3, set_hpd_state, sched_hpd_work,
      hp, hs]

/-- Witness for C3: the first failing read from a fresh CHECK_EDID context
re-enters CHECK_EDID after 60 ms with the counter at 1. -/
theorem edid_check_retry_witness :
    edid_check_state checkStart envReadFail =
      ({ checkStart with edid_reads := 1, state := STATE_CHECK_EDID,
                         dwork := some CHECK_EDID_DELAY_MS },
       [Call.get_hpd_state, Call.edid_read]) := by
  have h := (edid_check_retry checkStart envReadFail rfl rfl).2.1 rfl rfl
    (by decide)
  rw [h]; decide

/-- C4: the RECHECK_EDID handler maps an unchanged descriptor back to
DONE_ENABLED with nothing scheduled, a failure to a 60 ms retry of
RECHECK_EDID below the ceiling of 5, and both the at-ceiling failure and a
changed descriptor to the default target/timeout pair (RESET, 0 ms). -/
theorem edid_recheck_table (d : hpd_data) (env : hpd_env)
    (hp : d.pending_hpd_evt = false) (hs : d.shutdown = false) :
    edid_recheck_state d env =
      if env.edid_recheck = 0 then
        ({ d with state := STATE_DONE_ENABLED, dwork := none },
         [Call.edid_recheck])
      else if env.edid_recheck = -1 ∧
          d.edid_reads + 1 < MAX_EDID_READ_ATTEMPTS then
        ({ d with edid_reads := d.edid_reads + 1,
                  state := STATE_RECHECK_EDID,
                  dwork := some CHECK_EDID_DELAY_MS },
         [Call.edid_recheck])
      else if env.edid_recheck = -1 then
        ({ d with edid_reads := d.edid_reads + 1, state := STATE_HPD_RESET,
                  dwork := some 0 },
         [Call.edid_recheck])
      else
        ({ d with state := STATE_HPD_RESET, dwork := some 0 },
         [Call.edid_recheck]) := by
  by_cases hm : env.edid_recheck = -1
  · by_cases hlt : d.edid_reads + 1 < MAX_EDID_READ_ATTEMPTS
    · have hnle : ¬ (MAX_EDID_READ_ATTEMPTS ≤ d.edid_reads + 1) := by omega
      norm_num [edid_recheck_state, hm, hlt, hnle, set_hpd_state,
        sched_hpd_work, hp, hs, CHECK_EDID_DELAY_MS]
    · have hle : MAX_EDID_READ_ATTEMPTS ≤ d.edid_reads + 1 := by omega
      norm_num [edid_recheck_state, hm, hlt, hle, set_hpd_state,
        sched_hpd_work, hp, hs]
  · by_cases h0 : env.edid_recheck = 0 <;>
      norm_num [edid_recheck_state, hm, h0, set_hpd_state, sched_hpd_work,
        hp, hs]

/-- Witness for C4: an unchanged recheck returns to DONE_ENABLED with
nothing scheduled. -/
theorem edid_recheck_table_witness :
    edid_recheck_state recheckStart envDrop =
      ({ recheckStart with state := STATE_DONE_ENABLED, dwork := none },
       [Call.edid_recheck]) := by
  have h := edid_recheck_table recheckStart envDrop rfl rfl
  rw [h]; decide

/-- C6 (refuting its no-out-of-bounds part): a worker invocation with the
state at the out-of-range value 8 runs no handler and commits no transition,
but the worker's unconditional log line indexes `state_names` with the
current state value before the bounds check, and that index has no entry in
the 8-entry table — in the C code this lookup is an out-of-bounds read. -/
theorem out_of_range_state_log_oob :
    (hpd_worker strandedData envReadFail).1 =
      { strandedData with dwork := none } ∧
    (hpd_worker strandedData envReadFail).2 = [Call.get_hpd_state] ∧
    state_names.length = 8 ∧
    state_names.get? strandedData.state.toNat = none := by
  decide

/-- C9: initialization aborts exactly when one of the four mandatory
capabilities (signal sampling, descriptor read, descriptor-ready
notification, descriptor recheck) is absent; otherwise it succeeds, invoking
the optional init hook only when present and handing back a context in the
bootloader-takeover state with the retry counter and pending flag zeroed and
nothing scheduled. -/
theorem hpd_init_caps (drv_ops : hpd_ops) :
    (hpd_init drv_ops = none ↔
      ¬ (drv_ops.get_hpd_state = true ∧ drv_ops.edid_read = true ∧
         drv_ops.edid_ready = true ∧ drv_ops.edid_recheck = true)) ∧
    (∀ d calls, hpd_init drv_ops = some (d, calls) →
      d.state = STATE_INIT_FROM_BOOTLOADER ∧ d.edid_reads = 0 ∧
      d.pending_hpd_evt = false ∧ d.shutdown = false ∧ d.dwork = none ∧
      d.ops = drv_ops ∧
      calls = (if drv_ops.init then [Call.init] else [])) := by
  obtain ⟨oi, og, od, oer, oey, oec, os⟩ := drv_ops
  cases og <;> cases oer <;> cases oey <;> cases oec <;>
    simp [hpd_init, init_data]

/-- Witness for C9: with every hook supplied, initialization succeeds in the
bootloader-takeover state and invokes the init hook. -/
theorem hpd_init_caps_witness :
    hpd_init allOps = some (init_data allOps, [Call.init]) ∧
    (init_data allOps).state = STATE_INIT_FROM_BOOTLOADER ∧
    (init_data allOps).edid_reads = 0 ∧
    (init_data allOps).pending_hpd_evt = false := by
  have h := (hpd_init_caps allOps).2 (init_data allOps) [Call.init]
    (by decide)
  exact ⟨by decide, h.1, h.2.1, h.2.2.1⟩

/-- C8: in every reachable context the descriptor-read retry counter stays
at or below the ceiling of 5 and strictly below it while the machine sits in
a retrying state, and it is reset to 0 when a fresh read attempt begins:
entering CHECK_EDID from PLUG with the signal asserted, and entering
RECHECK_EDID from a reassert event admitted in WAIT_FOR_HPD_REASSERT. -/
theorem edid_retry_ceiling (drv_ops : hpd_ops) (d : hpd_data)
    (h : Reachable drv_ops d) :
    retry_inv d ∧
    (∀ e env, env.hpd = true →
      (hpd_plug_state e env).1.edid_reads = 0 ∧
      (hpd_plug_state e env).1.state = STATE_CHECK_EDID) ∧
    (∀ e, e.state = STATE_WAIT_FOR_HPD_REASSERT →
      (handle_hpd_evt e true).edid_reads = 0 ∧
      (handle_hpd_evt e true).state = STATE_RECHECK_EDID) := by
  refine ⟨(good_inv_reachable drv_ops d h).2.2.1, ?_, ?_⟩
  · intro e env he
    simp [hpd_plug_state, he]
  · intro e he
    norm_num [handle_hpd_evt, he, STATE_DONE_ENABLED,
      STATE_WAIT_FOR_HPD_REASSERT]

/-- Witness for C8 at the freshly initialized context. -/
theorem edid_retry_ceiling_witness :
    retry_inv (init_data allOps) :=
  (edid_retry_ceiling allOps (init_data allOps)
    Relation.ReflTransGen.refl).1

/-- C10: every reachable value of the state field is one of the 8 declared
state constants, and whenever a worker invocation is possible (a callback is
scheduled) with no pending event, the dispatch table has a handler for the
current state — so neither the out-of-range branch nor the NULL-handler
branch of the worker is ever taken in a reachable execution. -/
theorem reachable_state_in_range (drv_ops : hpd_ops) (d : hpd_data)
    (h : Reachable drv_ops d) :
    (0 ≤ d.state ∧ d.state < HPD_STATE_COUNT) ∧
    (d.dwork ≠ none → d.pending_hpd_evt = false →
      ∃ f, state_machine_dispatch.getD d.state.toNat none = some f) := by
  have hg := good_inv_reachable drv_ops d h
  refine ⟨⟨hg.1, hg.2.1⟩, fun hne hpf => ?_⟩
  have hdisp := hg.2.2.2 hne hpf
  unfold dispatchable at hdisp
  rcases hdisp with hs | hs | hs | hs | hs <;> rw [hs]
  · exact ⟨hpd_reset_state, rfl⟩
  · exact ⟨hpd_plug_state, rfl⟩
  · exact ⟨edid_check_state, rfl⟩
  · exact ⟨wait_for_hpd_reassert_state, rfl⟩
  · exact ⟨edid_recheck_state, rfl⟩

/-- Witness for C10 at the freshly initialized context. -/
theorem reachable_state_in_range_witness :
    0 ≤ (init_data allOps).state ∧
    (init_data allOps).state < HPD_STATE_COUNT :=
  (reachable_state_in_range allOps (init_data allOps)
    Relation.ReflTransGen.refl).1

end Hpd
